import Mathlib

/-!
Verification development for the spydify bulk catalog synchronizer
(src/spot_load.py).  The definitions below are shallow embeddings of the
crawler's components: the convergence check of the top-level loop, the
rate limiter (check_rate_limit), the fetchers (get_info, get_batch_info),
the paginated collectors (get_user_saved, get_artist_albums) and the
persistence layer (create_tables schema, dump_tracks, dump_albums,
dump_artists).  Machine time is modelled with exact rationals, SQLite
tables keyed by a PRIMARY KEY are modelled as maps from the key to an
optional row, and fallible Python code is modelled with Option/Except.
-/

/-! ### Convergence check of the crawl scheduler (spot_load.py, lines 838-850)

The main loop ends one full cycle with three COUNT queries and prints
"All items updated." (and breaks) exactly when all three counts are zero:
  SELECT COUNT(id) FROM Track  WHERE name IS NULL
  SELECT COUNT(id) FROM Album  WHERE name IS NULL
  SELECT COUNT(id) FROM Artist WHERE name IS NULL OR retrieved_albums = 0
The artist query is issued unconditionally: the check_albums toggle read
at startup is not consulted here.  (The schema in create_tables, lines
352-359, has no retrieved_albums column at all; the model below assumes
the column the query requires is present, holding a boolean.) -/

/-- Scan row of the Artist table as seen by the convergence queries:
the nullable name column and the retrieved_albums flag. -/
structure ArtistScan where
  name : Option String
  retrieved_albums : Bool
deriving DecidableEq

/-- Snapshot of the three entity tables as seen by the convergence check:
the nullable name column of every Track and Album row, and the artist
scan rows. -/
structure DBScan where
  tracks : List (Option String)
  albums : List (Option String)
  artists : List ArtistScan
deriving DecidableEq

/-- SELECT COUNT(id) FROM Track WHERE name IS NULL (line 840). -/
def count_tracks_null (d : DBScan) : Nat :=
  (d.tracks.filter Option.isNone).length

/-- SELECT COUNT(id) FROM Album WHERE name IS NULL (line 843). -/
def count_albums_null (d : DBScan) : Nat :=
  (d.albums.filter Option.isNone).length

/-- Row predicate of the artist convergence query (line 846):
name IS NULL OR retrieved_albums = 0. -/
def artist_row_incomplete (a : ArtistScan) : Bool :=
  a.name.isNone || !a.retrieved_albums

/-- SELECT COUNT(id) FROM Artist WHERE name IS NULL OR retrieved_albums = 0
(line 846), issued regardless of the check_albums toggle. -/
def count_artists_incomplete (d : DBScan) : Nat :=
  (d.artists.filter artist_row_incomplete).length

/-- Terminal convergence decision of the main loop (lines 840-850): the
loop prints "All items updated." and breaks iff all three counts are 0. -/
def converged_src (d : DBScan) : Bool :=
  count_tracks_null d == 0 && count_albums_null d == 0 &&
    count_artists_incomplete d == 0

/-- Modelled from the spec's words (for comparison with converged_src,
not from the code): an artist counts as incomplete for a missing
albums-retrieved flag only when album backfill is enabled. -/
def artist_row_incomplete_spec (checkAlbums : Bool) (a : ArtistScan) : Bool :=
  a.name.isNone || (checkAlbums && !a.retrieved_albums)

/-- Modelled from the spec's words (for comparison with converged_src):
converged iff no incomplete Track, Album or Artist, with the artist
backfill flag only consulted when album backfill is enabled. -/
def converged_spec (checkAlbums : Bool) (d : DBScan) : Bool :=
  count_tracks_null d == 0 && count_albums_null d == 0 &&
    (d.artists.filter (artist_row_incomplete_spec checkAlbums)).length == 0

/-! ### Fetchers (get_info, lines 119-163; get_batch_info, lines 165-213)

A single HTTP attempt is modelled by the next element of a list of
pre-arranged responses.  On HTTP 429 with retries left the code reads the
Retry-After header (default 1), sleeps retry_after * 2 ** (3 - retries)
seconds and recurses with retries - 1; any other failure, or an exhausted
retry budget, returns None.  The models return the result together with
the list of back-off sleeps performed and (for the batch fetcher) the
number of network attempts made. -/

/-- Outcome of one HTTP attempt: a decoded successful body, or an
HTTPError with its status code and optional Retry-After header. -/
inductive HResp where
  | ok (body : String)
  | err (code : Nat) (retryAfter : Option Nat)
deriving DecidableEq

/-- Back-off sleep of the 429 handler: retry_after * 2 ** (3 - retries),
with the Python ints embedded in the rationals (3 - retries can be
negative for an overlarge budget, hence the integer exponent). -/
def backoff_wait (retryAfter : Option Nat) (retries : Nat) : ℚ :=
  (retryAfter.getD 1 : ℚ) * (2 : ℚ) ^ ((3 : ℤ) - (retries : ℤ))

/-- Model of get_info's attempt/retry flow (lines 146-163): each attempt
consumes one response; a 429 with retries left sleeps the back-off wait
and recurses, everything else ends the call.  Returns the decoded body
(None on failure) and the sleeps performed. -/
def get_info_model : List HResp → Nat → Option String × List ℚ
  | [], _ => (none, [])
  | HResp.ok body :: _, _ => (some body, [])
  | HResp.err code ra :: rest, retries =>
      if code = 429 ∧ 0 < retries then
        let w := backoff_wait ra retries
        let r := get_info_model rest (retries - 1)
        (r.1, w :: r.2)
      else (none, [])

deriving instance DecidableEq for Except

/-- Result of a get_batch_info call: either a raised ValueError (with its
message) or a returned value (None for the empty input and for failed
requests), plus the back-off sleeps and the number of network attempts. -/
structure BatchRun where
  result : Except String (Option String)
  sleeps : List ℚ
  calls : Nat
deriving DecidableEq

/-- Validation phase of get_batch_info (lines 182-189), run before any
network traffic: the ValueError message raised, if any.  The empty-input
early return (line 186) is checked before the size limits. -/
def get_batch_info_validate (item_type : String) (item_ids : List String) :
    Option String :=
  if item_type ≠ "track" ∧ item_type ≠ "album" ∧ item_type ≠ "artist" then
    some "Invalid item_type. Expected one of ['track', 'album', 'artist']"
  else if item_ids.length = 0 then none
  else if item_type = "track" ∧ 50 < item_ids.length then
    some "Max batch size of tracks is 50"
  else if item_type = "artist" ∧ 50 < item_ids.length then
    some "Max batch size of artists is 50"
  else if item_type = "album" ∧ 20 < item_ids.length then
    some "Max batch size of albums is 20"
  else none

/-- Attempt/retry loop of get_batch_info (lines 196-213): one network
attempt per response, returning the decoded body (None on failure), the
back-off sleeps and the number of attempts.  The source recursion
re-enters get_batch_info itself, re-running validation with the very same
item_type and item_ids on every retry; since that re-validation has the
identical outcome, the loop carries only the attempt state. -/
def batch_attempt_loop : List HResp → Nat → (Option String × List ℚ) × Nat
  | [], _ => ((none, []), 1)
  | HResp.ok body :: _, _ => ((some body, []), 1)
  | HResp.err code ra :: rest, retries =>
      if code = 429 ∧ 0 < retries then
        let r := batch_attempt_loop rest (retries - 1)
        ((r.1.1, backoff_wait ra retries :: r.1.2), 1 + r.2)
      else ((none, []), 1)

/-- Model of get_batch_info (lines 165-213): validation, then the empty
id list returns None before any network attempt (line 186), then the
attempt/retry loop runs against the response stream. -/
def get_batch_info_model (resp : List HResp) (item_type : String)
    (item_ids : List String) (retries : Nat) : BatchRun :=
  match get_batch_info_validate item_type item_ids with
  | some msg => ⟨Except.error msg, [], 0⟩
  | none =>
    if item_ids.length = 0 then ⟨Except.ok none, [], 0⟩
    else
      let r := batch_attempt_loop resp retries
      ⟨Except.ok r.1.1, r.1.2, r.2⟩

/-! ### Rate limiter (check_rate_limit, lines 61-117)

State: the three FIFO windows of request timestamps, the rolling response
times, the adaptive base_wait, the total-request counter, and a simulated
clock (time.time()).  A call captures current_time at entry, sleeps
base_wait, then for each window at or above its cap sleeps
(duration - (current_time - window[0])) + 1, then (line 99-103) adapts
base_wait from the average response time, appends current_time to all
three windows, increments the counter, and finally pops entries older
than each window's duration relative to the same current_time.

time.sleep raises ValueError on a negative duration and deque[0] raises
IndexError on an empty deque; the model returns none for either.  The
window caps and durations (module constants, lines 25-27) are collected
in a configuration so that the spec's simulated test scenario is
expressible; spotify_cfg holds the source's constants. -/

/-- Per-window caps and durations of the limiter (lines 25-27: 50 per 30
seconds, 4000 per hour, 30000 per day in the source). -/
structure RLCfg where
  cap30 : Nat
  dur30 : ℚ
  capHour : Nat
  durHour : ℚ
  capDay : Nat
  durDay : ℚ
deriving DecidableEq

/-- Module constants of spot_load.py, lines 25-27. -/
def spotify_cfg : RLCfg := ⟨50, 30, 4000, 3600, 30000, 86400⟩

/-- Mutable module state of the rate limiter (lines 29-35) plus the
simulated wall clock read by time.time(). -/
structure RLState where
  halfmin : List ℚ
  hourly : List ℚ
  daily : List ℚ
  response_times : List ℚ
  base_wait : ℚ
  total_requests : Nat
  clock : ℚ
deriving DecidableEq

/-- Fresh module state at import time (lines 29-35): empty windows,
base_wait = 0.1, counter 0, clock 0. -/
def rl_init : RLState := ⟨[], [], [], [], 1/10, 0, 0⟩

/-- Steps of one check_rate_limit call, in the order the call performs
them: a sleep of some duration, the occupancy check of one window (0 =
30-second, 1 = hourly, 2 = daily), the append of the entry timestamp to
all three windows, and the eviction pass of one window (with the number
of timestamps it popped). -/
inductive RLEvent where
  | sleep (d : ℚ)
  | capCheck (window occupancy : Nat)
  | record (t : ℚ)
  | evict (window popped : Nat)
deriving DecidableEq

/-- Occupancy check of one window (lines 81-96): when the occupancy is at
or above the cap, sleep (duration - (current_time - window[0])) + 1.
Returns the advanced clock and the events, or none when the sleep
duration is negative (time.sleep raises ValueError) or the window is
empty with a cap of 0 (deque[0] raises IndexError). -/
def rl_cap_step (t clock : ℚ) (idx : Nat) (window : List ℚ) (cap : Nat)
    (dur : ℚ) : Option (ℚ × List RLEvent) :=
  if cap ≤ window.length then
    match window with
    | [] => none
    | x :: _ =>
        let wait := dur - (t - x)
        if wait + 1 < 0 then none
        else some (clock + (wait + 1),
          [RLEvent.capCheck idx window.length, RLEvent.sleep (wait + 1)])
  else some (clock, [RLEvent.capCheck idx window.length])

/-- Eviction pass of one window (lines 112-117): pop from the left while
the front is older than the duration relative to current_time. -/
def rl_evict (t dur : ℚ) (window : List ℚ) : List ℚ :=
  window.dropWhile (fun x => decide (dur < t - x))

/-- Model of one check_rate_limit call (lines 61-117) over a simulated
clock: returns the new state and the ordered event list, or none when the
call raises (negative sleep duration).  current_time is captured once at
entry and used for the cap waits, the recorded timestamps and the
evictions, exactly as in the source. -/
def check_rate_limit (cfg : RLCfg) (s : RLState) :
    Option (RLState × List RLEvent) :=
  let t := s.clock
  if s.base_wait < 0 then none
  else
    let clock1 := t + s.base_wait
    match rl_cap_step t clock1 0 s.halfmin cfg.cap30 cfg.dur30 with
    | none => none
    | some (clock2, ev30) =>
      match rl_cap_step t clock2 1 s.hourly cfg.capHour cfg.durHour with
      | none => none
      | some (clock3, evHour) =>
        match rl_cap_step t clock3 2 s.daily cfg.capDay cfg.durDay with
        | none => none
        | some (clock4, evDay) =>
          let base_wait' :=
            if 5 < s.response_times.length then
              max (1/10)
                ((s.response_times.sum / (s.response_times.length : ℚ)) * (3/2))
            else s.base_wait
          let halfmin' := rl_evict t cfg.dur30 (s.halfmin ++ [t])
          let hourly' := rl_evict t cfg.durHour (s.hourly ++ [t])
          let daily' := rl_evict t cfg.durDay (s.daily ++ [t])
          some (⟨halfmin', hourly', daily', s.response_times, base_wait',
                 s.total_requests + 1, clock4⟩,
            RLEvent.sleep s.base_wait :: ev30 ++ evHour ++ evDay ++
              [RLEvent.record t,
               RLEvent.evict 0 (s.halfmin.length + 1 - halfmin'.length),
               RLEvent.evict 1 (s.hourly.length + 1 - hourly'.length),
               RLEvent.evict 2 (s.daily.length + 1 - daily'.length)])

/-- Run of n back-to-back check_rate_limit calls; none when a call
raises. -/
def rl_run (cfg : RLCfg) : Nat → RLState → Option RLState
  | 0, s => some s
  | n + 1, s =>
      match check_rate_limit cfg s with
      | none => none
      | some (s', _) => rl_run cfg n s'

/-- Spec test configuration of C2: a cap of 5 requests per 1-second
window, with the other two windows left unconstraining. -/
def test_cfg : RLCfg := ⟨5, 1, 1000000, 3600, 1000000, 86400⟩

/-! ### Paginated collectors (get_user_saved, lines 215-258;
get_artist_albums, lines 260-302)

Both functions run the identical loop: limit = 50, offset = 0,
total = limit + 1, then while offset < total fetch the page at offset,
set total from the response, extend items and advance offset by limit.
A 429 with retries left sleeps and returns a fresh call with
retries - 1 (discarding everything collected so far); any other error
breaks, returning the items collected so far.  The unbounded while loop
is modelled with a fuel parameter; items are opaque naturals and the
model also returns the offsets fetched (one per page fetch). -/

/-- Response of one page fetch: the endpoint's reported total and the
page's items, or an HTTPError.  Any non-429 failure breaks the loop. -/
inductive PageResp where
  | ok (total : Nat) (items : List Nat)
  | httpErr (code : Nat) (retryAfter : Option Nat)
deriving DecidableEq

/-- Outcome of the inner while loop: normal completion with the items and
the fetched offsets, a 429-triggered restart request (carrying the
offsets fetched so far), or exhausted fuel (a modelling artifact: the
source loop is unbounded). -/
inductive PageLoopOut where
  | done (items : List Nat) (offs : List Nat)
  | restart (offs : List Nat)
  | fuelOut
deriving DecidableEq

/-- Inner while loop of the collectors (while offset < total): fetch the
page at offset, update total from the response, extend items, advance by
50.  On a 429 with retries left the whole call restarts; on any other
error the loop breaks with the items collected so far. -/
def page_loop (page : Nat → PageResp) (retries : Nat) :
    Nat → Nat → Nat → PageLoopOut
  | 0, offset, total => if total ≤ offset then PageLoopOut.done [] [] else PageLoopOut.fuelOut
  | fuel + 1, offset, total =>
      if total ≤ offset then PageLoopOut.done [] []
      else
        match page offset with
        | PageResp.ok t its =>
            match page_loop page retries fuel (offset + 50) t with
            | PageLoopOut.done items offs =>
                PageLoopOut.done (its ++ items) (offset :: offs)
            | PageLoopOut.restart offs => PageLoopOut.restart (offset :: offs)
            | PageLoopOut.fuelOut => PageLoopOut.fuelOut
        | PageResp.httpErr code _ =>
            if code = 429 ∧ 0 < retries then PageLoopOut.restart [offset]
            else PageLoopOut.done [] [offset]

/-- Model of get_user_saved (lines 215-258): run the loop from offset 0
with total initialised to limit + 1 = 51; a restart re-enters with one
retry fewer.  Returns the item list and the offsets fetched across all
(re)starts, or none when the fuel ran out. -/
def get_user_saved_model (page : Nat → PageResp) (fuel : Nat) :
    Nat → Option (List Nat × List Nat)
  | 0 =>
      match page_loop page 0 fuel 0 51 with
      | PageLoopOut.done items offs => some (items, offs)
      | PageLoopOut.fuelOut => none
      | PageLoopOut.restart _ => none
  | r + 1 =>
      match page_loop page (r + 1) fuel 0 51 with
      | PageLoopOut.done items offs => some (items, offs)
      | PageLoopOut.fuelOut => none
      | PageLoopOut.restart offs =>
          match get_user_saved_model page fuel r with
          | none => none
          | some (items, offs') => some (items, offs ++ offs')

/-- Model of get_artist_albums (lines 260-302): its loop is line-for-line
the control flow of get_user_saved (only the URL, token and the
include_groups query parameter differ), so the model is the same
function. -/
def get_artist_albums_model : (Nat → PageResp) → Nat → Nat →
    Option (List Nat × List Nat) :=
  get_user_saved_model

/-! ### Store: schema and dump operations (create_tables, lines 304-401;
dump_tracks, lines 491-550; dump_albums, lines 552-624; dump_artists,
lines 626-673)

Each dump function walks its payload list and issues a sequence of SQL
statements; the statements are embedded as an explicit operation list so
that insertion order is part of the model.  Genre has a surrogate
AUTOINCREMENT id with a UNIQUE name column (lines 363-368); since name
determines the row, the model keys Genre and ArtistGenre by the genre
name.  SELECT id FROM Genre WHERE name = ? followed by fetchone()[0]
(lines 666-669) is an explicit operation that fails when no row exists
(fetchone() returns None and the subscript raises). -/

/-- SQL statements issued by the dump functions, in source order.
INSERT OR REPLACE statements carry every column; INSERT OR IGNORE stub
inserts carry only the id. -/
inductive DumpOp where
  | replaceTrack (id name album_id : String)
      (duration popularity expl track_number : Int)
  | insTrackArtist (track_id artist_id : String)
  | stubArtist (id : String)
  | stubAlbum (id : String)
  | replaceAlbum (id name release_date : String) (total_tracks : Int)
      (label album_type : String) (popularity : Int)
  | insAlbumArtist (album_id artist_id : String)
  | stubTrack (id : String)
  | replaceArtist (id name : String) (popularity followers : Int)
  | insGenre (name : String)
  | selGenre (name : String)
  | insArtistGenre (artist_id genre_name : String)
deriving DecidableEq

/-- Parsed track payload of dump_tracks (lines 516-524): the fields the
function reads, with artists reduced to their ids as in the source. -/
structure TrackP where
  id : String
  name : String
  artists : List String
  album_id : String
  duration_ms : Int
  popularity : Int
  expl : Bool
  track_number : Int
deriving DecidableEq

/-- Statements issued for one track by dump_tracks (lines 528-550):
INSERT OR REPLACE the Track row; then for each artist INSERT OR IGNORE
the TrackArtist relation followed by the Artist stub; then INSERT OR
IGNORE the Album stub. -/
def track_item_ops (t : TrackP) : List DumpOp :=
  DumpOp.replaceTrack t.id t.name t.album_id t.duration_ms t.popularity
      (if t.expl then 1 else 0) t.track_number ::
    (t.artists.flatMap fun a =>
      [DumpOp.insTrackArtist t.id a, DumpOp.stubArtist a]) ++
    [DumpOp.stubAlbum t.album_id]

/-- Statement sequence of dump_tracks (lines 491-550) over its payload
list. -/
def dump_tracks_ops (ts : List TrackP) : List DumpOp :=
  ts.flatMap track_item_ops

/-- Parsed album payload of dump_albums (lines 583-591). -/
structure AlbumP where
  id : String
  name : String
  artists : List String
  release_date : String
  total_tracks : Int
  label : String
  album_type : String
  popularity : Int
  track_ids : List String
deriving DecidableEq

/-- Release-date normalization of dump_albums (lines 593-597): year and
year-month dates are widened to full dates, 10-character dates pass, and
anything else raises ValueError (none). -/
def normalize_release_date (d : String) : Option String :=
  if d.length = 4 then some (d ++ "-01-01")
  else if d.length = 7 then some (d ++ "-01")
  else if d.length = 10 then some d
  else none

/-- Statements issued for one album by dump_albums (lines 601-624), given
the normalized release date: INSERT OR REPLACE the Album row; then for
each artist INSERT OR IGNORE the AlbumArtist relation followed by the
Artist stub; then INSERT OR IGNORE a Track stub per album track. -/
def album_item_ops (a : AlbumP) (d : String) : List DumpOp :=
  DumpOp.replaceAlbum a.id a.name d a.total_tracks a.label a.album_type
      a.popularity ::
    (a.artists.flatMap fun x =>
      [DumpOp.insAlbumArtist a.id x, DumpOp.stubArtist x]) ++
    a.track_ids.map DumpOp.stubTrack

/-- Statement sequence of dump_albums (lines 552-624): albums are
processed in order; an invalid release date raises ValueError, ending the
sequence there (the Bool records whether the call raised). -/
def dump_albums_ops : List AlbumP → List DumpOp × Bool
  | [] => ([], false)
  | a :: rest =>
      match normalize_release_date a.release_date with
      | none => ([], true)
      | some d =>
          let r := dump_albums_ops rest
          (album_item_ops a d ++ r.1, r.2)

/-- Parsed artist payload of dump_artists (lines 645-650). -/
structure ArtistP where
  id : String
  name : String
  popularity : Int
  followers : Int
  genres : List String
deriving DecidableEq

/-- Statements issued for one artist by dump_artists (lines 654-673):
INSERT OR REPLACE the Artist row; then for each genre INSERT OR IGNORE
the Genre row, SELECT its id, and INSERT OR IGNORE the ArtistGenre
relation. -/
def artist_item_ops (ar : ArtistP) : List DumpOp :=
  DumpOp.replaceArtist ar.id ar.name ar.popularity ar.followers ::
    ar.genres.flatMap fun g =>
      [DumpOp.insGenre g, DumpOp.selGenre g, DumpOp.insArtistGenre ar.id g]

/-- Statement sequence of dump_artists (lines 626-673) over its payload
list. -/
def dump_artists_ops (ars : List ArtistP) : List DumpOp :=
  ars.flatMap artist_item_ops

/-! ### Store state and statement semantics

create_tables (lines 304-401) gives every entity table a PRIMARY KEY id
and the relation tables composite primary keys, so a table is modelled as
a map from its key to an optional row (at most one row per key) and a
relation as its membership function.  INSERT OR REPLACE overwrites the
whole row; INSERT OR IGNORE inserts only when the key is absent. -/

/-- Track row (lines 321-331): every column but the id, each nullable. -/
structure TrackRow where
  name : Option String
  album_id : Option String
  duration : Option Int
  popularity : Option Int
  expl : Option Int
  track_number : Option Int
deriving DecidableEq

/-- Album row (lines 336-346): every column but the id, each nullable. -/
structure AlbumRow where
  name : Option String
  release_date : Option String
  total_tracks : Option Int
  label : Option String
  album_type : Option String
  popularity : Option Int
deriving DecidableEq

/-- Artist row (lines 352-359): every column but the id, each nullable. -/
structure ArtistRow where
  name : Option String
  popularity : Option Int
  followers : Option Int
deriving DecidableEq

/-- Store state: one map per entity table (PRIMARY KEY id to optional
row), the set of Genre names (the UNIQUE name column determines the row),
and the three relation tables as membership functions on their composite
primary keys. -/
@[ext]
structure DBState where
  track : String → Option TrackRow
  album : String → Option AlbumRow
  artist : String → Option ArtistRow
  genre : String → Bool
  trackArtist : String → String → Bool
  albumArtist : String → String → Bool
  artistGenre : String → String → Bool

/-- Effect of one statement on the store.  REPLACE statements overwrite
the row at the id; IGNORE statements write only when the key is absent;
SELECT changes nothing. -/
def applyOp (s : DBState) : DumpOp → DBState
  | DumpOp.replaceTrack i n al d p e tn =>
      { s with track := (Function.update s.track i
          (some ⟨some n, some al, some d, some p, some e, some tn⟩)) }
  | DumpOp.insTrackArtist t a =>
      { s with trackArtist := fun x y =>
          if x = t ∧ y = a then true else s.trackArtist x y }
  | DumpOp.stubArtist i =>
      if (s.artist i).isNone then
        { s with artist := (Function.update s.artist i (some ⟨none, none, none⟩)) }
      else s
  | DumpOp.stubAlbum i =>
      if (s.album i).isNone then
        { s with album := (Function.update s.album i
            (some ⟨none, none, none, none, none, none⟩)) }
      else s
  | DumpOp.replaceAlbum i n rd tt l at_ p =>
      { s with album := (Function.update s.album i
          (some ⟨some n, some rd, some tt, some l, some at_, some p⟩)) }
  | DumpOp.insAlbumArtist al a =>
      { s with albumArtist := fun x y =>
          if x = al ∧ y = a then true else s.albumArtist x y }
  | DumpOp.stubTrack i =>
      if (s.track i).isNone then
        { s with track := (Function.update s.track i
            (some ⟨none, none, none, none, none, none⟩)) }
      else s
  | DumpOp.replaceArtist i n p f =>
      { s with artist := (Function.update s.artist i (some ⟨some n, some p, some f⟩)) }
  | DumpOp.insGenre g =>
      if s.genre g then s
      else { s with genre := fun x => if x = g then true else s.genre x }
  | DumpOp.selGenre _ => s
  | DumpOp.insArtistGenre a g =>
      { s with artistGenre := fun x y =>
          if x = a ∧ y = g then true else s.artistGenre x y }

/-- Sequential application of a statement list. -/
def applyOps (s : DBState) (l : List DumpOp) : DBState :=
  l.foldl applyOp s

/-- Fallible execution of one statement: SELECT id FROM Genre WHERE
name = ? followed by fetchone()[0] (lines 666-669) raises when no Genre
row with that name exists; every other statement succeeds. -/
def execOp (s : DBState) : DumpOp → Except Unit DBState
  | DumpOp.selGenre g =>
      if s.genre g then Except.ok s else Except.error ()
  | o => Except.ok (applyOp s o)

/-- Fallible execution of a statement list, stopping at the first raise. -/
def execOps (s : DBState) : List DumpOp → Except Unit DBState
  | [] => Except.ok s
  | o :: rest =>
      match execOp s o with
      | Except.error e => Except.error e
      | Except.ok s' => execOps s' rest

/-! ### Insertion-order checkers for the dump statement sequences -/

/-- Track id upserted (fully or as a stub) by a statement, if any. -/
def upTrack : DumpOp → Option String
  | DumpOp.replaceTrack i _ _ _ _ _ _ => some i
  | DumpOp.stubTrack i => some i
  | _ => none

/-- Album id upserted (fully or as a stub) by a statement, if any. -/
def upAlbum : DumpOp → Option String
  | DumpOp.replaceAlbum i _ _ _ _ _ _ => some i
  | DumpOp.stubAlbum i => some i
  | _ => none

/-- Artist id upserted (fully or as a stub) by a statement, if any. -/
def upArtist : DumpOp → Option String
  | DumpOp.replaceArtist i _ _ _ => some i
  | DumpOp.stubArtist i => some i
  | _ => none

/-- Genre name inserted by a statement, if any. -/
def upGenre : DumpOp → Option String
  | DumpOp.insGenre g => some g
  | _ => none

/-- Whether the already-issued statements (seen) contain an upsert of
both endpoint rows of a relation insert; non-relation statements pass. -/
def relEndpointsSeen (seen : List DumpOp) : DumpOp → Bool
  | DumpOp.insTrackArtist t a =>
      seen.any (fun o => upTrack o == some t) &&
        seen.any (fun o => upArtist o == some a)
  | DumpOp.insAlbumArtist al a =>
      seen.any (fun o => upAlbum o == some al) &&
        seen.any (fun o => upArtist o == some a)
  | DumpOp.insArtistGenre a g =>
      seen.any (fun o => upArtist o == some a) &&
        seen.any (fun o => upGenre o == some g)
  | _ => true

/-- Scan of a statement list checking that every relation insert is
preceded by upserts of both of its endpoints (the claimed invariant),
accumulating the statements already issued. -/
def endpointsFirstAux : List DumpOp → List DumpOp → Bool
  | _, [] => true
  | seen, o :: rest => relEndpointsSeen seen o && endpointsFirstAux (o :: seen) rest

/-- Claimed insertion-order invariant: in the statement sequence, every
relation row is inserted only after upserts of both endpoint rows. -/
def endpointsFirst (l : List DumpOp) : Bool :=
  endpointsFirstAux [] l

/-- Actual per-item order of dump_tracks: every TrackArtist insert names
a previously replaced Track id and is immediately followed by the Artist
stub of its artist id (seen accumulates the replaced Track ids). -/
def dt_pattern (seen : List String) : List DumpOp → Bool
  | [] => true
  | DumpOp.insTrackArtist t a :: rest =>
      seen.contains t &&
        (match rest with
         | DumpOp.stubArtist a' :: _ => a' == a
         | _ => false) &&
        dt_pattern seen rest
  | DumpOp.replaceTrack i _ _ _ _ _ _ :: rest => dt_pattern (i :: seen) rest
  | _ :: rest => dt_pattern seen rest

/-- Actual per-item order of dump_albums: every AlbumArtist insert names
a previously replaced Album id and is immediately followed by the Artist
stub of its artist id (seen accumulates the replaced Album ids). -/
def da_pattern (seen : List String) : List DumpOp → Bool
  | [] => true
  | DumpOp.insAlbumArtist al a :: rest =>
      seen.contains al &&
        (match rest with
         | DumpOp.stubArtist a' :: _ => a' == a
         | _ => false) &&
        da_pattern seen rest
  | DumpOp.replaceAlbum i _ _ _ _ _ _ :: rest => da_pattern (i :: seen) rest
  | _ :: rest => da_pattern seen rest

/-! ### Order checkers for one check_rate_limit call's event list -/

/-- Tail phase of the actual acquire order: any number of occupancy
checks and sleeps, then the record, then exactly the three eviction
passes. -/
def rl_actual_tail : List RLEvent → Bool
  | RLEvent.record _ ::
      [RLEvent.evict 0 _, RLEvent.evict 1 _, RLEvent.evict 2 _] => true
  | RLEvent.capCheck _ _ :: rest => rl_actual_tail rest
  | RLEvent.sleep _ :: rest => rl_actual_tail rest
  | _ => false

/-- Actual order of one check_rate_limit call: a base-wait sleep first,
then occupancy checks and their sleeps, then the record, then the three
eviction passes last. -/
def rl_actual_order : List RLEvent → Bool
  | RLEvent.sleep _ :: rest => rl_actual_tail rest
  | _ => false

/-- Whether an event is an eviction pass. -/
def RLEvent.isEvict : RLEvent → Bool
  | RLEvent.evict _ _ => true
  | _ => false

/-- Middle phase of the claimed acquire order: occupancy checks and
sleeps only, ending with the record as the very last step. -/
def rl_claimed_mid : List RLEvent → Bool
  | [RLEvent.record _] => true
  | RLEvent.capCheck _ _ :: rest => rl_claimed_mid rest
  | RLEvent.sleep _ :: rest => rl_claimed_mid rest
  | _ => false

/-- Claimed order of one acquire call (C8): evictions first, then the
base-wait sleep, then occupancy checks with their sleeps, and the record
as the final step. -/
def rl_claimed_order (l : List RLEvent) : Bool :=
  match l.dropWhile RLEvent.isEvict with
  | RLEvent.sleep _ :: rest => rl_claimed_mid rest
  | _ => false

/-- Window-containment consistency of a rate-limiter state (what every
state reachable from the fresh state, and hence every snapshot written by
save_request_log, satisfies): the 30-second window is a suffix of the
hourly window, which is a suffix of the daily window. -/
def rl_consistent (s : RLState) : Prop :=
  s.halfmin <:+ s.hourly ∧ s.hourly <:+ s.daily

instance (s : RLState) : Decidable (rl_consistent s) := by
  unfold rl_consistent; infer_instance


/-! ### Per-key write actions of the dump statements

For the idempotence and safety arguments each statement's effect on one
fixed table entry is one of three write actions: leave it alone, write a
constant row (INSERT OR REPLACE, and relation inserts on their composite
key), or write a constant row only when the entry is absent (INSERT OR
IGNORE).  kapply applies one action given the presence test of the
entry's value type. -/

/-- Write action on one table entry. -/
inductive KAct (γ : Type) where
  | keep
  | const (c : γ)
  | guard (c : γ)
deriving DecidableEq

/-- Application of one write action, given the presence test. -/
def kapply {γ : Type} (present : γ → Bool) : KAct γ → γ → γ
  | KAct.keep, v => v
  | KAct.const c, _ => c
  | KAct.guard c, v => if present v then v else c

/-- Folding a list of write actions over one entry. -/
def kfold {γ : Type} (present : γ → Bool) (acts : List (KAct γ)) (v : γ) : γ :=
  acts.foldl (fun v a => kapply present a v) v

/-- Well-formed action: whatever it writes is present afterwards. -/
def kwf {γ : Type} (present : γ → Bool) : KAct γ → Bool
  | KAct.keep => true
  | KAct.const c => present c
  | KAct.guard c => present c

/-- Action of a statement on the Track entry at id i. -/
def trackAct (i : String) : DumpOp → KAct (Option TrackRow)
  | DumpOp.replaceTrack i' n al d p e tn =>
      if i = i' then KAct.const (some ⟨some n, some al, some d, some p,
        some e, some tn⟩) else KAct.keep
  | DumpOp.stubTrack i' =>
      if i = i' then KAct.guard (some ⟨none, none, none, none, none, none⟩)
      else KAct.keep
  | _ => KAct.keep

/-- Action of a statement on the Album entry at id i. -/
def albumAct (i : String) : DumpOp → KAct (Option AlbumRow)
  | DumpOp.replaceAlbum i' n rd tt l at_ p =>
      if i = i' then KAct.const (some ⟨some n, some rd, some tt, some l,
        some at_, some p⟩) else KAct.keep
  | DumpOp.stubAlbum i' =>
      if i = i' then KAct.guard (some ⟨none, none, none, none, none, none⟩)
      else KAct.keep
  | _ => KAct.keep

/-- Action of a statement on the Artist entry at id i. -/
def artistAct (i : String) : DumpOp → KAct (Option ArtistRow)
  | DumpOp.replaceArtist i' n p f =>
      if i = i' then KAct.const (some ⟨some n, some p, some f⟩) else KAct.keep
  | DumpOp.stubArtist i' =>
      if i = i' then KAct.guard (some ⟨none, none, none⟩) else KAct.keep
  | _ => KAct.keep

/-- Action of a statement on the presence of Genre name g. -/
def genreAct (g : String) : DumpOp → KAct Bool
  | DumpOp.insGenre g' => if g = g' then KAct.guard true else KAct.keep
  | _ => KAct.keep

/-- Action of a statement on the TrackArtist entry at (t, a). -/
def trackArtistAct (t a : String) : DumpOp → KAct Bool
  | DumpOp.insTrackArtist t' a' =>
      if t = t' ∧ a = a' then KAct.const true else KAct.keep
  | _ => KAct.keep

/-- Action of a statement on the AlbumArtist entry at (al, a). -/
def albumArtistAct (al a : String) : DumpOp → KAct Bool
  | DumpOp.insAlbumArtist al' a' =>
      if al = al' ∧ a = a' then KAct.const true else KAct.keep
  | _ => KAct.keep

/-- Action of a statement on the ArtistGenre entry at (a, g). -/
def artistGenreAct (a g : String) : DumpOp → KAct Bool
  | DumpOp.insArtistGenre a' g' =>
      if a = a' ∧ g = g' then KAct.const true else KAct.keep
  | _ => KAct.keep

/-- Statement that reads Genre (the SELECT of dump_artists), the only
fallible statement. -/
def hasSel : DumpOp → Bool
  | DumpOp.selGenre _ => true
  | _ => false

/-! ## Theorems -/

/-! ### C1: convergence decision of the crawl scheduler -/

/-- Claim C1 counterexample: with album backfill disabled and a single
fully named artist whose retrieved_albums flag is unset (and no
incomplete tracks or albums), the claim's convergence condition holds but
the code's terminal check does not pass, because the check consults
retrieved_albums regardless of the toggle. -/
theorem C1_counterexample :
    converged_spec false ⟨[], [], [⟨some "A", false⟩]⟩ = true ∧
    converged_src ⟨[], [], [⟨some "A", false⟩]⟩ = false := by
  constructor <;> rfl

/-- Claim C1 amended: the loop's terminal check passes iff every Track
and every Album has a name and every Artist has both a name and the
retrieved_albums flag set — i.e. it always equals the spec's
backfill-enabled convergence condition, with the backfill toggle having
no effect on the decision. -/
theorem C1_convergence_check (d : DBScan) :
    converged_src d = converged_spec true d ∧
    (converged_src d = true ↔
      (∀ n ∈ d.tracks, n.isSome) ∧ (∀ n ∈ d.albums, n.isSome) ∧
        ∀ a ∈ d.artists, a.name.isSome ∧ a.retrieved_albums = true) := by
  have hfun : artist_row_incomplete = artist_row_incomplete_spec true := by
    funext a
    simp [artist_row_incomplete, artist_row_incomplete_spec]
  constructor
  · simp [converged_src, converged_spec, count_artists_incomplete, hfun]
  · simp only [converged_src, count_tracks_null, count_albums_null,
      count_artists_incomplete, Bool.and_eq_true, beq_iff_eq,
      List.length_eq_zero, List.filter_eq_nil_iff]
    constructor
    · rintro ⟨⟨h1, h2⟩, h3⟩
      refine ⟨fun n hn => ?_, fun n hn => ?_, fun a ha => ?_⟩
      · have := h1 n hn; simpa [Option.isNone_iff_eq_none, Option.isSome_iff_ne_none] using this
      · have := h2 n hn; simpa [Option.isNone_iff_eq_none, Option.isSome_iff_ne_none] using this
      · have := h3 a ha
        simp only [artist_row_incomplete, Bool.or_eq_true, Bool.not_eq_true'] at this
        push_neg at this
        constructor
        · simpa [Option.isSome_iff_ne_none, Option.isNone_iff_eq_none] using this.1
        · simpa using this.2
    · rintro ⟨h1, h2, h3⟩
      refine ⟨⟨fun n hn => ?_, fun n hn => ?_⟩, fun a ha => ?_⟩
      · have := h1 n hn; simpa [Option.isNone_iff_eq_none, Option.isSome_iff_ne_none] using this
      · have := h2 n hn; simpa [Option.isNone_iff_eq_none, Option.isSome_iff_ne_none] using this
      · have := h3 a ha
        simp only [artist_row_incomplete, Bool.or_eq_true, Bool.not_eq_true']
        push_neg
        constructor
        · simpa [Option.isSome_iff_ne_none, Option.isNone_iff_eq_none] using this.1
        · simpa using this.2

/-! ### C2: the rate limiter's window-cap invariant -/

set_option maxHeartbeats 1000000 in
/-- Claim C2 evaluated at a failing input: with the spec's test
parameters (cap 5, 1-second window, base_wait 0.1), 6 back-to-back
acquire() calls from the fresh state leave 6 recorded timestamps in the
short window, all lying inside the half-second span [0, 1/2] — more than
the cap of 5 inside one 1-second sliding sub-window — because each call
records the timestamp captured at entry, before its rate-limit sleep, and
evicts relative to that same stale instant.  The 7th call then attempts
time.sleep of a negative duration and raises ValueError, so 20
back-to-back calls cannot even complete. -/
theorem C2_cap_exceeded :
    (rl_run test_cfg 6 rl_init).map (fun s => s.halfmin) =
      some [0, 1/10, 2/10, 3/10, 4/10, 5/10] ∧
    (∀ x ∈ [(0 : ℚ), 1/10, 2/10, 3/10, 4/10, 5/10], 0 ≤ x ∧ x ≤ 1/2) ∧
    rl_run test_cfg 7 rl_init = none := by
  refine ⟨?_, by norm_num, ?_⟩ <;>
    norm_num [rl_run, check_rate_limit, rl_cap_step, rl_evict, rl_init,
      test_cfg, List.dropWhile]

/-! ### C3: batch-size validation of get_batch_info -/

/-- Helper: the attempt loop always makes at least one network
attempt. -/
theorem batch_attempt_loop_calls_pos (resp : List HResp) (r : Nat) :
    1 ≤ (batch_attempt_loop resp r).2 := by
  cases resp with
  | nil => simp [batch_attempt_loop]
  | cons h rest =>
    cases h with
    | ok body => simp [batch_attempt_loop]
    | err code retryAfter =>
      by_cases hc : code = 429 ∧ 0 < r <;> simp [batch_attempt_loop, hc]

/-- Helper: once validation passes and the id list is nonempty, any run
of get_batch_info makes at least one network attempt. -/
theorem get_batch_info_calls_pos (resp : List HResp) (t : String)
    (ids : List String) (r : Nat)
    (hv : get_batch_info_validate t ids = none) (hne : ids.length ≠ 0) :
    1 ≤ (get_batch_info_model resp t ids r).calls := by
  simp [get_batch_info_model, hv, hne, batch_attempt_loop_calls_pos]

/-- Claim C3: batch resolution over a valid entity kind fails with the
kind-specific ValueError, before any network attempt, whenever the id
list exceeds the maximum (50 for tracks and artists, 20 for albums); an
id list of exactly the maximum passes validation and proceeds to the
network; and the empty id list returns the empty (None) result with no
error raised and no network attempt. -/
theorem C3_batch_size_enforcement (resp : List HResp)
    (big mid exact exact20 : List String)
    (h1 : 50 < big.length) (h2 : 20 < mid.length)
    (h3 : exact.length = 50) (h4 : exact20.length = 20) :
    get_batch_info_model resp "track" big 3 =
      ⟨Except.error "Max batch size of tracks is 50", [], 0⟩ ∧
    get_batch_info_model resp "artist" big 3 =
      ⟨Except.error "Max batch size of artists is 50", [], 0⟩ ∧
    get_batch_info_model resp "album" mid 3 =
      ⟨Except.error "Max batch size of albums is 20", [], 0⟩ ∧
    get_batch_info_validate "track" exact = none ∧
    get_batch_info_validate "artist" exact = none ∧
    get_batch_info_validate "album" exact20 = none ∧
    1 ≤ (get_batch_info_model resp "track" exact 3).calls ∧
    1 ≤ (get_batch_info_model resp "album" exact20 3).calls ∧
    get_batch_info_model resp "track" [] 3 = ⟨Except.ok none, [], 0⟩ ∧
    get_batch_info_model resp "album" [] 3 = ⟨Except.ok none, [], 0⟩ ∧
    get_batch_info_model resp "artist" [] 3 = ⟨Except.ok none, [], 0⟩ := by
  have hbig0 : ¬big.length = 0 := by omega
  have hmid0 : ¬mid.length = 0 := by omega
  have hv1 : get_batch_info_validate "track" exact = none := by
    simp [get_batch_info_validate, h3]
  have hv2 : get_batch_info_validate "artist" exact = none := by
    simp [get_batch_info_validate, h3]
  have hv3 : get_batch_info_validate "album" exact20 = none := by
    simp [get_batch_info_validate, h4]
  refine ⟨?_, ?_, ?_, hv1, hv2, hv3, ?_, ?_, ?_, ?_, ?_⟩
  · simp [get_batch_info_model, get_batch_info_validate, hbig0, h1]
  · simp [get_batch_info_model, get_batch_info_validate, hbig0, h1]
  · simp [get_batch_info_model, get_batch_info_validate, hmid0, h2]
  · exact get_batch_info_calls_pos resp "track" exact 3 hv1 (by omega)
  · exact get_batch_info_calls_pos resp "album" exact20 3 hv3 (by omega)
  · simp [get_batch_info_model, get_batch_info_validate]
  · simp [get_batch_info_model, get_batch_info_validate]
  · simp [get_batch_info_model, get_batch_info_validate]

/-- Claim C3 witness: the validation outcomes at concrete inputs — 51 ids
overflow the track batch, the empty album batch returns None with no
network attempt. -/
theorem C3_witness :
    get_batch_info_model [] "track" (List.replicate 51 "x") 3 =
      ⟨Except.error "Max batch size of tracks is 50", [], 0⟩ ∧
    get_batch_info_model [] "album" [] 3 = ⟨Except.ok none, [], 0⟩ ∧
    1 ≤ (get_batch_info_model [] "track" (List.replicate 50 "x") 3).calls := by
  obtain ⟨a, -, -, -, -, -, b, -, -, c, -⟩ :=
    C3_batch_size_enforcement [] (List.replicate 51 "x")
      (List.replicate 21 "x") (List.replicate 50 "x") (List.replicate 20 "x")
      (by simp) (by simp) (by simp) (by simp)
  exact ⟨a, c, b⟩

/-! ### C4: 429 retry/back-off policy of the fetchers -/

/-- Claim C4: against a stream of HTTP 429 responses, get_info with the
default budget of 3 sleeps retry_after * 2 ** attempt seconds before each
retry (attempt counted from 0; retry_after defaulting to 1 when the
header is absent), performs exactly 3 retries (4 attempts, visible as the
batch fetcher's call count), and on exhaustion returns None rather than
raising; with Retry-After: 3 the first back-off sleep is exactly 3
seconds, hence at least 3. -/
theorem C4_retry_after_backoff (ra : Nat) :
    get_info_model (List.replicate 5 (HResp.err 429 (some ra))) 3 =
      (none, [(ra : ℚ), 2 * ra, 4 * ra]) ∧
    get_info_model (List.replicate 5 (HResp.err 429 none)) 3 =
      (none, [1, 2, 4]) ∧
    get_batch_info_model (List.replicate 5 (HResp.err 429 (some ra))) "track"
        ["x"] 3 = ⟨Except.ok none, [(ra : ℚ), 2 * ra, 4 * ra], 4⟩ ∧
    ∃ w, (get_info_model (List.replicate 5 (HResp.err 429 (some 3))) 3).2.head? =
        some w ∧ 3 ≤ w := by
  have e1 : get_info_model (List.replicate 5 (HResp.err 429 (some ra))) 3 =
      (none, [(ra : ℚ), 2 * ra, 4 * ra]) := by
    norm_num [get_info_model, backoff_wait, List.replicate]
    constructor <;> ring
  refine ⟨e1, ?_, ?_, ?_⟩
  · norm_num [get_info_model, backoff_wait, List.replicate]
  · norm_num [get_batch_info_model, get_batch_info_validate,
      batch_attempt_loop, backoff_wait, List.replicate]
    constructor <;> ring
  · refine ⟨3, ?_, le_refl 3⟩
    have := e1
    norm_num [get_info_model, backoff_wait, List.replicate]

/-! ### C5: insertion order of relation rows and endpoint stubs -/

/-- Claim C5 counterexample: dumping one track with one artist issues, in
order, the Track replace, the TrackArtist relation insert, the Artist
stub, the Album stub — the relation row is inserted before its Artist
endpoint has been upserted, so the claimed endpoints-before-relation
order does not hold. -/
theorem C5_counterexample :
    endpointsFirst (dump_tracks_ops
      [⟨"t1", "Song", ["a1"], "al1", 200, 10, false, 1⟩]) = false := by
  rfl

theorem dt_pattern_inner (t : String) (arts : List String) (seen : List String)
    (rest : List DumpOp) (ht : seen.contains t = true)
    (hrest : dt_pattern seen rest = true) :
    dt_pattern seen ((arts.flatMap fun a =>
      [DumpOp.insTrackArtist t a, DumpOp.stubArtist a]) ++ rest) = true := by
  induction arts with
  | nil => simpa using hrest
  | cons a arts ih =>
      have ht' : t ∈ seen := by simpa using ht
      simp only [List.flatMap_cons, List.cons_append, List.append_assoc]
      simp [dt_pattern, ht', ih]

theorem dump_tracks_pattern (ts : List TrackP) (seen : List String) :
    dt_pattern seen (dump_tracks_ops ts) = true := by
  induction ts generalizing seen with
  | nil => rfl
  | cons tr ts ih =>
      show dt_pattern seen (track_item_ops tr ++ dump_tracks_ops ts) = true
      unfold track_item_ops
      simp only [List.cons_append, List.append_assoc, List.singleton_append]
      rw [dt_pattern]
      exact dt_pattern_inner tr.id tr.artists (tr.id :: seen) _
        (by simp) (by simp [dt_pattern, ih])

theorem da_pattern_inner (al : String) (arts : List String) (seen : List String)
    (rest : List DumpOp) (hal : al ∈ seen)
    (hrest : da_pattern seen rest = true) :
    da_pattern seen ((arts.flatMap fun x =>
      [DumpOp.insAlbumArtist al x, DumpOp.stubArtist x]) ++ rest) = true := by
  induction arts with
  | nil => simpa using hrest
  | cons a arts ih =>
      simp only [List.flatMap_cons, List.cons_append, List.append_assoc]
      simp [da_pattern, hal, ih]

theorem da_pattern_stubs (seen : List String) (ids : List String)
    (rest : List DumpOp) (hrest : da_pattern seen rest = true) :
    da_pattern seen (ids.map DumpOp.stubTrack ++ rest) = true := by
  induction ids with
  | nil => simpa using hrest
  | cons i ids ih => simpa [da_pattern] using ih

theorem dump_albums_pattern (als : List AlbumP) (seen : List String) :
    da_pattern seen (dump_albums_ops als).1 = true := by
  induction als generalizing seen with
  | nil => rfl
  | cons a als ih =>
      rw [dump_albums_ops]
      cases hd : normalize_release_date a.release_date with
      | none => rfl
      | some d =>
          simp only
          unfold album_item_ops
          simp only [List.cons_append, List.append_assoc]
          rw [da_pattern]
          exact da_pattern_inner a.id a.artists (a.id :: seen) _
            (by simp) (da_pattern_stubs _ _ _ (ih _))

theorem endpointsFirstAux_append (seen l1 l2 : List DumpOp) :
    endpointsFirstAux seen (l1 ++ l2) =
      (endpointsFirstAux seen l1 &&
        endpointsFirstAux (l1.reverse ++ seen) l2) := by
  induction l1 generalizing seen with
  | nil => simp [endpointsFirstAux]
  | cons o l1 ih =>
      simp [endpointsFirstAux, ih, Bool.and_assoc]

theorem seen_any_mono {s1 s2 : List DumpOp} (h : ∀ o ∈ s1, o ∈ s2)
    (p : DumpOp → Bool) (hp : s1.any p = true) : s2.any p = true := by
  rcases List.any_eq_true.mp hp with ⟨o, ho, hpo⟩
  exact List.any_eq_true.mpr ⟨o, h o ho, hpo⟩

theorem artist_genre_ops_ok (a : String) (gs : List String)
    (seen : List DumpOp)
    (ha : seen.any (fun o => upArtist o == some a) = true) :
    endpointsFirstAux seen (gs.flatMap fun g =>
      [DumpOp.insGenre g, DumpOp.selGenre g, DumpOp.insArtistGenre a g]) =
      true := by
  induction gs generalizing seen with
  | nil => rfl
  | cons g gs ih =>
      simp only [List.flatMap_cons, List.cons_append]
      rw [endpointsFirstAux, endpointsFirstAux, endpointsFirstAux]
      have ha2 : (DumpOp.selGenre g :: DumpOp.insGenre g :: seen).any
          (fun o => upArtist o == some a) = true :=
        seen_any_mono (fun o ho => by simp [ho]) _ ha
      have hg : (DumpOp.selGenre g :: DumpOp.insGenre g :: seen).any
          (fun o => upGenre o == some g) = true := by
        simp [upGenre]
      have ha3 : (DumpOp.insArtistGenre a g :: DumpOp.selGenre g ::
          DumpOp.insGenre g :: seen).any (fun o => upArtist o == some a) = true :=
        seen_any_mono (fun o ho => by simp [ho]) _ ha2
      simp [relEndpointsSeen, ha2, hg, ih _ ha3]

theorem dump_artists_endpoints (ars : List ArtistP) (seen : List DumpOp) :
    endpointsFirstAux seen (dump_artists_ops ars) = true := by
  induction ars generalizing seen with
  | nil => rfl
  | cons ar ars ih =>
      show endpointsFirstAux seen (artist_item_ops ar ++ dump_artists_ops ars) =
        true
      rw [endpointsFirstAux_append, Bool.and_eq_true]
      refine ⟨?_, ih _⟩
      unfold artist_item_ops
      rw [endpointsFirstAux, Bool.and_eq_true]
      exact ⟨rfl, artist_genre_ops_ok ar.id ar.genres _ (by simp [upArtist])⟩

/-- Claim C5 amended: in dump_tracks and dump_albums the primary row is
replaced first and each Artist relation row is inserted immediately
before (not after) the Artist stub upsert of its artist endpoint, while
its other endpoint (the Track or Album id) has been upserted earlier;
only in dump_artists is every relation row (ArtistGenre) inserted after
upserts of both of its endpoints. -/
theorem C5_insert_order :
    (∀ ts seen, dt_pattern seen (dump_tracks_ops ts) = true) ∧
    (∀ als seen, da_pattern seen (dump_albums_ops als).1 = true) ∧
    (∀ ars, endpointsFirst (dump_artists_ops ars) = true) :=
  ⟨dump_tracks_pattern, dump_albums_pattern,
    fun ars => dump_artists_endpoints ars []⟩

/-! ### C7: pagination completeness of the collectors -/

/-- Helper: against an endpoint reporting total 130, the page loop
fetches offsets 0, 50, 100 and concatenates the three pages in order. -/
theorem page_loop_130 (page : Nat → PageResp) (f : Nat → List Nat)
    (hp : ∀ o, page o = PageResp.ok 130 (f o)) (retries : Nat) :
    page_loop page retries 3 0 51 =
      PageLoopOut.done (f 0 ++ (f 50 ++ f 100)) [0, 50, 100] := by
  simp [page_loop, hp]

/-- Claim C7: against a mocked paginated endpoint whose every response
reports total = 130, both collectors issue exactly three page fetches at
offsets 0, 50 and 100 and return the three pages' items concatenated in
order; when the pages hold 50, 50 and 30 items, exactly 130 items are
returned. -/
theorem C7_pagination (page : Nat → PageResp) (f : Nat → List Nat)
    (hp : ∀ o, page o = PageResp.ok 130 (f o)) (retries : Nat) :
    get_user_saved_model page 3 retries =
      some (f 0 ++ (f 50 ++ f 100), [0, 50, 100]) ∧
    get_artist_albums_model page 3 retries =
      some (f 0 ++ (f 50 ++ f 100), [0, 50, 100]) ∧
    ((f 0).length = 50 → (f 50).length = 50 → (f 100).length = 30 →
      (f 0 ++ (f 50 ++ f 100)).length = 130) := by
  have h : get_user_saved_model page 3 retries =
      some (f 0 ++ (f 50 ++ f 100), [0, 50, 100]) := by
    cases retries <;> simp [get_user_saved_model, page_loop_130 page f hp]
  refine ⟨h, h, fun h1 h2 h3 => by simp [h1, h2, h3]⟩

/-- Claim C7 witness: the concrete mock whose page at offset o holds
min 50 (130 - o) items returns 130 items in three fetches. -/
theorem C7_witness :
    (get_user_saved_model
        (fun o => PageResp.ok 130 (List.replicate (min 50 (130 - o)) o)) 3
        3).map (fun p => (p.1.length, p.2)) = some (130, [0, 50, 100]) := by
  obtain ⟨h, -, hlen⟩ := C7_pagination
    (fun o => PageResp.ok 130 (List.replicate (min 50 (130 - o)) o))
    (fun o => List.replicate (min 50 (130 - o)) o) (fun o => rfl) 3
  rw [h]
  simp [hlen (by simp) (by simp) (by simp)]

/-! ### C8: step order inside one check_rate_limit call -/

/-- Helper: the events of one occupancy check (a check, possibly followed
by a sleep) are transparent to the actual-order tail scanner. -/
theorem rl_cap_step_events (t clock : ℚ) (idx : Nat) (w : List ℚ) (cap : Nat)
    (dur : ℚ) (c : ℚ) (ev : List RLEvent)
    (h : rl_cap_step t clock idx w cap dur = some (c, ev))
    (rest : List RLEvent) :
    rl_actual_tail (ev ++ rest) = rl_actual_tail rest := by
  unfold rl_cap_step at h
  split at h
  · cases w with
    | nil => simp at h
    | cons x xs =>
        simp only at h
        split at h
        · simp at h
        · simp only [Option.some.injEq, Prod.mk.injEq] at h
          obtain ⟨-, rfl⟩ := h
          simp [rl_actual_tail]
  · simp only [Option.some.injEq, Prod.mk.injEq] at h
    obtain ⟨-, rfl⟩ := h
    simp [rl_actual_tail]

/-- Helper: the order scanner after the leading sleep. -/
theorem rl_actual_order_cons (d : ℚ) (rest : List RLEvent) :
    rl_actual_order (RLEvent.sleep d :: rest) = rl_actual_tail rest := rfl

/-- Claim C8 amended: every completing check_rate_limit call performs its
steps in this order: (1) sleep base_wait, (2) one occupancy check per
window, each sleeping (window_duration - age_of_oldest_entry) + 1 when at
or above its cap, with no re-check after the sleep, (3) record the
timestamp captured at entry in all three windows and increment the
counter, and (4) last of all, evict from each window the timestamps older
than its duration relative to that same entry timestamp. -/
theorem C8_order (cfg : RLCfg) (s : RLState) (s' : RLState)
    (tr : List RLEvent) (h : check_rate_limit cfg s = some (s', tr)) :
    rl_actual_order tr = true := by
  unfold check_rate_limit at h
  split at h
  · simp at h
  · dsimp only at h
    rcases e30 : rl_cap_step s.clock (s.clock + s.base_wait) 0 s.halfmin
        cfg.cap30 cfg.dur30 with - | ⟨c2, ev30⟩ <;> rw [e30] at h
    · simp at h
    · dsimp only at h
      rcases eH : rl_cap_step s.clock c2 1 s.hourly cfg.capHour cfg.durHour
        with - | ⟨c3, evH⟩ <;> rw [eH] at h
      · simp at h
      · dsimp only at h
        rcases eD : rl_cap_step s.clock c3 2 s.daily cfg.capDay cfg.durDay
          with - | ⟨c4, evD⟩ <;> rw [eD] at h
        · simp at h
        · dsimp only at h
          simp only [Option.some.injEq, Prod.mk.injEq] at h
          obtain ⟨-, rfl⟩ := h
          simp only [List.cons_append] at *
          rw [rl_actual_order_cons]
          simp only [List.append_assoc]
          rw [rl_cap_step_events _ _ _ _ _ _ _ _ e30,
            rl_cap_step_events _ _ _ _ _ _ _ _ eH,
            rl_cap_step_events _ _ _ _ _ _ _ _ eD]
          rfl

/-- Claim C8 counterexample: a call on a restored state holding one stale
timestamp performs its base-wait sleep first and its (non-empty)
evictions only after the record step, so the claimed order — eviction
first, record last — is violated. -/
theorem C8_counterexample :
    (check_rate_limit spotify_cfg ⟨[0], [0], [0], [], 1/10, 0, 40000⟩).map
      (fun p => rl_claimed_order p.2) = some false := by
  norm_num [check_rate_limit, rl_cap_step, rl_evict, spotify_cfg,
    rl_claimed_order, rl_claimed_mid, RLEvent.isEvict, List.dropWhile]

/-- Claim C8 witness: the event trace of a concrete completing call (from
the fresh state under the source constants) satisfies the actual order. -/
theorem C8_witness :
    rl_actual_order [RLEvent.sleep (1/10), RLEvent.capCheck 0 0,
      RLEvent.capCheck 1 0, RLEvent.capCheck 2 0, RLEvent.record 0,
      RLEvent.evict 0 0, RLEvent.evict 1 0, RLEvent.evict 2 0] = true :=
  C8_order spotify_cfg rl_init ⟨[0], [0], [0], [], 1/10, 1, 1/10⟩ _
    (by norm_num [check_rate_limit, rl_cap_step, rl_evict, spotify_cfg,
      rl_init, List.dropWhile])

/-! ### C9: containment of the three rate-limit windows -/

/-- Helper: of two suffixes of one list, the shorter is a suffix of the
longer. -/
theorem suffix_of_suffix_length_le {α : Type} {l1 l2 l : List α}
    (h1 : l1 <:+ l) (h2 : l2 <:+ l) (hl : l1.length ≤ l2.length) :
    l1 <:+ l2 := by
  have a1 : l1.length ≤ l.length := h1.sublist.length_le
  have a2 : l2.length ≤ l.length := h2.sublist.length_le
  rw [List.suffix_iff_eq_drop] at h1 h2
  rw [h1, h2]
  rw [show l.length - l1.length =
      (l.length - l2.length) + (l2.length - l1.length) by omega]
  rw [← List.drop_drop]
  exact List.drop_suffix _ _

/-- Helper: dropWhile never lengthens a list. -/
theorem length_dropWhile_le {α : Type} (p : α → Bool) (l : List α) :
    (l.dropWhile p).length ≤ l.length :=
  (List.dropWhile_suffix p).sublist.length_le

/-- Helper: a weaker drop predicate leaves at least as long a tail. -/
theorem length_dropWhile_mono_pred {α : Type} {p q : α → Bool}
    (himp : ∀ x, q x = true → p x = true) (l : List α) :
    (l.dropWhile p).length ≤ (l.dropWhile q).length := by
  induction l with
  | nil => simp
  | cons x xs ih =>
      by_cases hq : q x = true
      · rw [List.dropWhile_cons_of_pos (himp x hq), List.dropWhile_cons_of_pos hq]
        exact ih
      · have e2 : List.dropWhile q (x :: xs) = x :: xs :=
          List.dropWhile_cons_of_neg (by simpa using hq)
        rw [e2]
        by_cases hp : p x = true
        · rw [List.dropWhile_cons_of_pos hp]
          exact le_trans (length_dropWhile_le p xs) (by simp)
        · have e1 : List.dropWhile p (x :: xs) = x :: xs :=
            List.dropWhile_cons_of_neg (by simpa using hp)
          rw [e1]

/-- Helper: dropWhile of a suffix is at most as long as dropWhile of the
whole list. -/
theorem length_dropWhile_suffix_le {α : Type} {q : α → Bool}
    {S L : List α} (h : S <:+ L) :
    (S.dropWhile q).length ≤ (L.dropWhile q).length := by
  obtain ⟨t, rfl⟩ := h
  induction t with
  | nil => simp
  | cons x t ih =>
      by_cases hq : q x = true
      · rw [List.cons_append, List.dropWhile_cons_of_pos hq]
        exact ih
      · have e2 : List.dropWhile q (x :: (t ++ S)) = x :: (t ++ S) :=
          List.dropWhile_cons_of_neg (by simpa using hq)
        rw [List.cons_append, e2]
        have := length_dropWhile_le q S
        simp only [List.length_cons, List.length_append]
        omega

/-- Helper: dropWhile with a stronger predicate on a suffix yields a
suffix of dropWhile with a weaker predicate on the whole list. -/
theorem dropWhile_suffix_mono {α : Type} {p q : α → Bool} {S L : List α}
    (h : S <:+ L) (himp : ∀ x, q x = true → p x = true) :
    S.dropWhile p <:+ L.dropWhile q :=
  suffix_of_suffix_length_le
    ((List.dropWhile_suffix p).trans h) (List.dropWhile_suffix q)
    (le_trans (length_dropWhile_mono_pred himp S) (length_dropWhile_suffix_le h))

/-- Helper: eviction preserves the suffix relation between a
shorter-duration window and a longer-duration one. -/
theorem rl_evict_suffix_mono {S L : List ℚ} {t d1 d2 : ℚ} (hd : d1 ≤ d2)
    (h : S <:+ L) : rl_evict t d1 S <:+ rl_evict t d2 L := by
  unfold rl_evict
  refine dropWhile_suffix_mono h fun x hx => ?_
  simp only [decide_eq_true_eq] at hx ⊢
  linarith

/-- Helper: one completing check_rate_limit call preserves the
window-containment consistency (every call appends the same entry
timestamp to all three windows and evicts by nondecreasing durations). -/
theorem check_rate_limit_consistent {cfg : RLCfg}
    (hcfg : cfg.dur30 ≤ cfg.durHour ∧ cfg.durHour ≤ cfg.durDay)
    {s s' : RLState} {tr : List RLEvent}
    (h : check_rate_limit cfg s = some (s', tr)) (hs : rl_consistent s) :
    rl_consistent s' := by
  unfold check_rate_limit at h
  split at h
  · simp at h
  · dsimp only at h
    rcases e30 : rl_cap_step s.clock (s.clock + s.base_wait) 0 s.halfmin
        cfg.cap30 cfg.dur30 with - | ⟨c2, ev30⟩ <;> rw [e30] at h
    · simp at h
    · dsimp only at h
      rcases eH : rl_cap_step s.clock c2 1 s.hourly cfg.capHour cfg.durHour
        with - | ⟨c3, evH⟩ <;> rw [eH] at h
      · simp at h
      · dsimp only at h
        rcases eD : rl_cap_step s.clock c3 2 s.daily cfg.capDay cfg.durDay
          with - | ⟨c4, evD⟩ <;> rw [eD] at h
        · simp at h
        · dsimp only at h
          simp only [Option.some.injEq, Prod.mk.injEq] at h
          obtain ⟨rfl, -⟩ := h
          obtain ⟨u, hu⟩ := hs.1
          obtain ⟨v, hv⟩ := hs.2
          constructor
          · exact rl_evict_suffix_mono hcfg.1
              ⟨u, by rw [← List.append_assoc, hu]⟩
          · exact rl_evict_suffix_mono hcfg.2
              ⟨v, by rw [← List.append_assoc, hv]⟩

/-- Helper: any run of check_rate_limit calls preserves consistency. -/
theorem rl_run_consistent {cfg : RLCfg}
    (hcfg : cfg.dur30 ≤ cfg.durHour ∧ cfg.durHour ≤ cfg.durDay)
    (n : Nat) {s s' : RLState} (h : rl_run cfg n s = some s')
    (hs : rl_consistent s) : rl_consistent s' := by
  induction n generalizing s with
  | zero =>
      obtain rfl : s = s' := Option.some.inj h
      exact hs
  | succ n ih =>
      rw [rl_run] at h
      rcases e : check_rate_limit cfg s with - | ⟨s1, tr⟩ <;> rw [e] at h
      · simp at h
      · exact ih h (check_rate_limit_consistent hcfg e hs)

/-- Claim C9: starting from an empty state or any consistent snapshot
(the 30-second window a suffix of the hourly window, itself a suffix of
the daily window — the shape load_request_log restores from any
save_request_log snapshot of a reachable state), after any sequence of
check_rate_limit calls the multiset of timestamps in the 30-second
window is contained in the hourly window's multiset, which is contained
in the daily window's multiset. -/
theorem C9_window_containment (n : Nat) (s s' : RLState)
    (hs : rl_consistent s) (h : rl_run spotify_cfg n s = some s') :
    ((s'.halfmin : Multiset ℚ) ≤ (s'.hourly : Multiset ℚ) ∧
      (s'.hourly : Multiset ℚ) ≤ (s'.daily : Multiset ℚ)) ∧
    rl_consistent s' := by
  have hc : rl_consistent s' :=
    rl_run_consistent (by norm_num [spotify_cfg]) n h hs
  exact ⟨⟨Multiset.coe_le.mpr hc.1.sublist.subperm,
    Multiset.coe_le.mpr hc.2.sublist.subperm⟩, hc⟩

/-- Claim C9 witness: one call from the fresh state yields the state with
[0] in every window, which is consistent with the containments holding. -/
theorem C9_witness :
    ((([0] : List ℚ) : Multiset ℚ) ≤ (([0] : List ℚ) : Multiset ℚ) ∧
      (([0] : List ℚ) : Multiset ℚ) ≤ (([0] : List ℚ) : Multiset ℚ)) ∧
    rl_consistent ⟨[0], [0], [0], [], 1/10, 1, 1/10⟩ := by
  have hrun : rl_run spotify_cfg 1 rl_init =
      some ⟨[0], [0], [0], [], 1/10, 1, 1/10⟩ := by
    norm_num [rl_run, check_rate_limit, rl_cap_step, rl_evict, rl_init,
      spotify_cfg, List.dropWhile]
  exact C9_window_containment 1 rl_init _
    ⟨List.suffix_refl _, List.suffix_refl _⟩ hrun

/-! ### C6 and C10: store semantics of the dump statement sequences -/

/-- Helper: unfolding one write action of a fold. -/
theorem kfold_cons {γ : Type} (present : γ → Bool) (a : KAct γ)
    (rest : List (KAct γ)) (v : γ) :
    kfold present (a :: rest) v = kfold present rest (kapply present a v) :=
  rfl

/-- Helper: a well-formed action leaves a present entry (keep needs the
entry present already). -/
theorem kapply_present {γ : Type} (present : γ → Bool) (a : KAct γ) (v : γ)
    (hwa : kwf present a = true) (hv : present v = true ∨ a ≠ KAct.keep) :
    present (kapply present a v) = true := by
  cases a with
  | keep => simpa [kapply] using hv.resolve_right (by simp)
  | const c => simpa [kapply, kwf] using hwa
  | guard c =>
      by_cases hp : present v = true <;>
        (simp [kapply, hp, kwf] at hwa ⊢; try simp [hwa])

/-- Helper: well-formed actions keep a present entry present. -/
theorem kfold_present {γ : Type} (present : γ → Bool)
    (acts : List (KAct γ)) (v : γ) (hv : present v = true)
    (hw : ∀ a ∈ acts, kwf present a = true) :
    present (kfold present acts v) = true := by
  induction acts generalizing v with
  | nil => simpa [kfold]
  | cons a rest ih =>
      rw [kfold_cons]
      exact ih _ (kapply_present present a v (hw a (by simp)) (Or.inl hv))
        (fun b hb => hw b (by simp [hb]))

/-- Helper: replaying a list of well-formed write actions over an entry a
second time changes nothing — constants rewrite the same value and
guarded writes find the entry present. -/
theorem kfold_idem {γ : Type} (present : γ → Bool)
    (acts : List (KAct γ)) (v : γ)
    (hw : ∀ a ∈ acts, kwf present a = true) :
    kfold present acts (kfold present acts v) = kfold present acts v := by
  induction acts generalizing v with
  | nil => simp [kfold]
  | cons a rest ih =>
      have hwa := hw a (by simp)
      have hrest : ∀ b ∈ rest, kwf present b = true :=
        fun b hb => hw b (by simp [hb])
      rw [kfold_cons, kfold_cons]
      cases a with
      | keep => exact ih _ hrest
      | const c =>
          rw [show kapply present (KAct.const c)
            (kfold present rest (kapply present (KAct.const c) v)) =
              kapply present (KAct.const c) v from rfl]
      | guard c =>
          have h1 : present (kapply present (KAct.guard c) v) = true :=
            kapply_present present _ v hwa (Or.inr (by simp))
          have h2 : present (kfold present rest
              (kapply present (KAct.guard c) v)) = true :=
            kfold_present present rest _ h1 hrest
          have h2' : present (kfold present rest
              (if present v = true then v else c)) = true := by
            simpa [kapply] using h2
          rw [show kapply present (KAct.guard c) (kfold present rest
            (kapply present (KAct.guard c) v)) = kfold present rest
            (kapply present (KAct.guard c) v) by simp [kapply, h2']]
          exact ih _ hrest

/-- Helper: the store fold projects, entry by entry, to a fold of write
actions. -/
theorem foldl_proj {γ : Type} (f : DBState → γ) (act : DumpOp → KAct γ)
    (present : γ → Bool)
    (hact : ∀ s o, f (applyOp s o) = kapply present (act o) (f s))
    (l : List DumpOp) (s : DBState) :
    f (applyOps s l) = kfold present (l.map act) (f s) := by
  induction l generalizing s with
  | nil => rfl
  | cons o rest ih =>
      rw [show applyOps s (o :: rest) = applyOps (applyOp s o) rest from rfl]
      rw [List.map_cons, kfold_cons, ← hact]
      exact ih _

/-- Helper: statement effect on one Track entry. -/
theorem applyOp_track (s : DBState) (o : DumpOp) (i : String) :
    (applyOp s o).track i = kapply Option.isSome (trackAct i o) (s.track i) := by
  cases o with
  | replaceTrack i' n al d p e tn =>
      by_cases h : i = i' <;>
        simp [applyOp, trackAct, kapply, Function.update_apply, h]
  | stubTrack i' =>
      by_cases h : i = i'
      · subst h
        cases hv : s.track i <;>
          simp [applyOp, trackAct, kapply, Function.update_apply, hv]
      · cases hv : s.track i' <;>
          simp [applyOp, trackAct, kapply, Function.update_apply, h, hv]
  | stubArtist i' =>
      by_cases h : (s.artist i').isNone <;> simp [applyOp, trackAct, kapply, h]
  | stubAlbum i' =>
      by_cases h : (s.album i').isNone <;> simp [applyOp, trackAct, kapply, h]
  | insGenre g => by_cases h : s.genre g <;> simp [applyOp, trackAct, kapply, h]
  | _ => simp [applyOp, trackAct, kapply]

/-- Helper: statement effect on one Album entry. -/
theorem applyOp_album (s : DBState) (o : DumpOp) (i : String) :
    (applyOp s o).album i = kapply Option.isSome (albumAct i o) (s.album i) := by
  cases o with
  | replaceAlbum i' n rd tt l at_ p =>
      by_cases h : i = i' <;>
        simp [applyOp, albumAct, kapply, Function.update_apply, h]
  | stubAlbum i' =>
      by_cases h : i = i'
      · subst h
        cases hv : s.album i <;>
          simp [applyOp, albumAct, kapply, Function.update_apply, hv]
      · cases hv : s.album i' <;>
          simp [applyOp, albumAct, kapply, Function.update_apply, h, hv]
  | stubArtist i' =>
      by_cases h : (s.artist i').isNone <;> simp [applyOp, albumAct, kapply, h]
  | stubTrack i' =>
      by_cases h : (s.track i').isNone <;> simp [applyOp, albumAct, kapply, h]
  | insGenre g => by_cases h : s.genre g <;> simp [applyOp, albumAct, kapply, h]
  | _ => simp [applyOp, albumAct, kapply]

/-- Helper: statement effect on one Artist entry. -/
theorem applyOp_artist (s : DBState) (o : DumpOp) (i : String) :
    (applyOp s o).artist i =
      kapply Option.isSome (artistAct i o) (s.artist i) := by
  cases o with
  | replaceArtist i' n p f =>
      by_cases h : i = i' <;>
        simp [applyOp, artistAct, kapply, Function.update_apply, h]
  | stubArtist i' =>
      by_cases h : i = i'
      · subst h
        cases hv : s.artist i <;>
          simp [applyOp, artistAct, kapply, Function.update_apply, hv]
      · cases hv : s.artist i' <;>
          simp [applyOp, artistAct, kapply, Function.update_apply, h, hv]
  | stubAlbum i' =>
      by_cases h : (s.album i').isNone <;> simp [applyOp, artistAct, kapply, h]
  | stubTrack i' =>
      by_cases h : (s.track i').isNone <;> simp [applyOp, artistAct, kapply, h]
  | insGenre g => by_cases h : s.genre g <;> simp [applyOp, artistAct, kapply, h]
  | _ => simp [applyOp, artistAct, kapply]

/-- Helper: statement effect on one Genre name. -/
theorem applyOp_genre (s : DBState) (o : DumpOp) (g : String) :
    (applyOp s o).genre g = kapply id (genreAct g o) (s.genre g) := by
  cases o with
  | insGenre g' =>
      by_cases h : g = g'
      · subst h
        by_cases hv : s.genre g <;> simp [applyOp, genreAct, kapply, hv]
      · by_cases hv : s.genre g' <;> simp [applyOp, genreAct, kapply, h, hv]
  | stubArtist i' =>
      by_cases h : (s.artist i').isNone <;> simp [applyOp, genreAct, kapply, h]
  | stubAlbum i' =>
      by_cases h : (s.album i').isNone <;> simp [applyOp, genreAct, kapply, h]
  | stubTrack i' =>
      by_cases h : (s.track i').isNone <;> simp [applyOp, genreAct, kapply, h]
  | _ => simp [applyOp, genreAct, kapply]

/-- Helper: statement effect on one TrackArtist entry. -/
theorem applyOp_trackArtist (s : DBState) (o : DumpOp) (t a : String) :
    (applyOp s o).trackArtist t a =
      kapply id (trackArtistAct t a o) (s.trackArtist t a) := by
  cases o with
  | insTrackArtist t' a' =>
      by_cases h : t = t' ∧ a = a' <;>
        simp [applyOp, trackArtistAct, kapply, h]
  | stubArtist i' =>
      by_cases h : (s.artist i').isNone <;>
        simp [applyOp, trackArtistAct, kapply, h]
  | stubAlbum i' =>
      by_cases h : (s.album i').isNone <;>
        simp [applyOp, trackArtistAct, kapply, h]
  | stubTrack i' =>
      by_cases h : (s.track i').isNone <;>
        simp [applyOp, trackArtistAct, kapply, h]
  | insGenre g =>
      by_cases h : s.genre g <;> simp [applyOp, trackArtistAct, kapply, h]
  | _ => simp [applyOp, trackArtistAct, kapply]

/-- Helper: statement effect on one AlbumArtist entry. -/
theorem applyOp_albumArtist (s : DBState) (o : DumpOp) (al a : String) :
    (applyOp s o).albumArtist al a =
      kapply id (albumArtistAct al a o) (s.albumArtist al a) := by
  cases o with
  | insAlbumArtist al' a' =>
      by_cases h : al = al' ∧ a = a' <;>
        simp [applyOp, albumArtistAct, kapply, h]
  | stubArtist i' =>
      by_cases h : (s.artist i').isNone <;>
        simp [applyOp, albumArtistAct, kapply, h]
  | stubAlbum i' =>
      by_cases h : (s.album i').isNone <;>
        simp [applyOp, albumArtistAct, kapply, h]
  | stubTrack i' =>
      by_cases h : (s.track i').isNone <;>
        simp [applyOp, albumArtistAct, kapply, h]
  | insGenre g =>
      by_cases h : s.genre g <;> simp [applyOp, albumArtistAct, kapply, h]
  | _ => simp [applyOp, albumArtistAct, kapply]

/-- Helper: statement effect on one ArtistGenre entry. -/
theorem applyOp_artistGenre (s : DBState) (o : DumpOp) (a g : String) :
    (applyOp s o).artistGenre a g =
      kapply id (artistGenreAct a g o) (s.artistGenre a g) := by
  cases o with
  | insArtistGenre a' g' =>
      by_cases h : a = a' ∧ g = g' <;>
        simp [applyOp, artistGenreAct, kapply, h]
  | stubArtist i' =>
      by_cases h : (s.artist i').isNone <;>
        simp [applyOp, artistGenreAct, kapply, h]
  | stubAlbum i' =>
      by_cases h : (s.album i').isNone <;>
        simp [applyOp, artistGenreAct, kapply, h]
  | stubTrack i' =>
      by_cases h : (s.track i').isNone <;>
        simp [applyOp, artistGenreAct, kapply, h]
  | insGenre g' =>
      by_cases h : s.genre g' <;> simp [applyOp, artistGenreAct, kapply, h]
  | _ => simp [applyOp, artistGenreAct, kapply]

/-- Helper: Track actions are well-formed. -/
theorem trackAct_wf (i : String) (o : DumpOp) :
    kwf Option.isSome (trackAct i o) = true := by
  cases o <;> simp only [trackAct] <;> (try split) <;> simp [kwf]

/-- Helper: Album actions are well-formed. -/
theorem albumAct_wf (i : String) (o : DumpOp) :
    kwf Option.isSome (albumAct i o) = true := by
  cases o <;> simp only [albumAct] <;> (try split) <;> simp [kwf]

/-- Helper: Artist actions are well-formed. -/
theorem artistAct_wf (i : String) (o : DumpOp) :
    kwf Option.isSome (artistAct i o) = true := by
  cases o <;> simp only [artistAct] <;> (try split) <;> simp [kwf]

/-- Helper: Genre actions are well-formed. -/
theorem genreAct_wf (g : String) (o : DumpOp) :
    kwf id (genreAct g o) = true := by
  cases o <;> simp only [genreAct] <;> (try split) <;> simp [kwf]

/-- Helper: TrackArtist actions are well-formed. -/
theorem trackArtistAct_wf (t a : String) (o : DumpOp) :
    kwf id (trackArtistAct t a o) = true := by
  cases o <;> simp only [trackArtistAct] <;> (try split) <;> simp [kwf]

/-- Helper: AlbumArtist actions are well-formed. -/
theorem albumArtistAct_wf (al a : String) (o : DumpOp) :
    kwf id (albumArtistAct al a o) = true := by
  cases o <;> simp only [albumArtistAct] <;> (try split) <;> simp [kwf]

/-- Helper: ArtistGenre actions are well-formed. -/
theorem artistGenreAct_wf (a g : String) (o : DumpOp) :
    kwf id (artistGenreAct a g o) = true := by
  cases o <;> simp only [artistGenreAct] <;> (try split) <;> simp [kwf]

/-- Helper: replaying any dump statement list a second time leaves the
store unchanged: REPLACE statements rewrite the identical rows, IGNORE
statements find their keys present (no statement ever deletes a row) and
relation inserts find their composite keys present. -/
theorem applyOps_idem (l : List DumpOp) (s : DBState) :
    applyOps (applyOps s l) l = applyOps s l := by
  have wfmap : ∀ {γ : Type} (present : γ → Bool) (act : DumpOp → KAct γ),
      (∀ o, kwf present (act o) = true) →
      ∀ a ∈ l.map act, kwf present a = true := by
    intro γ present act hwf a ha
    obtain ⟨o, -, rfl⟩ := List.mem_map.mp ha
    exact hwf o
  apply DBState.ext
  · funext i
    rw [foldl_proj (fun u => u.track i) (trackAct i) Option.isSome
        (fun u o => applyOp_track u o i) l,
      foldl_proj (fun u => u.track i) (trackAct i) Option.isSome
        (fun u o => applyOp_track u o i) l]
    exact kfold_idem _ _ _ (wfmap _ _ (trackAct_wf i))
  · funext i
    rw [foldl_proj (fun u => u.album i) (albumAct i) Option.isSome
        (fun u o => applyOp_album u o i) l,
      foldl_proj (fun u => u.album i) (albumAct i) Option.isSome
        (fun u o => applyOp_album u o i) l]
    exact kfold_idem _ _ _ (wfmap _ _ (albumAct_wf i))
  · funext i
    rw [foldl_proj (fun u => u.artist i) (artistAct i) Option.isSome
        (fun u o => applyOp_artist u o i) l,
      foldl_proj (fun u => u.artist i) (artistAct i) Option.isSome
        (fun u o => applyOp_artist u o i) l]
    exact kfold_idem _ _ _ (wfmap _ _ (artistAct_wf i))
  · funext g
    rw [foldl_proj (fun u => u.genre g) (genreAct g) id
        (fun u o => applyOp_genre u o g) l,
      foldl_proj (fun u => u.genre g) (genreAct g) id
        (fun u o => applyOp_genre u o g) l]
    exact kfold_idem _ _ _ (wfmap _ _ (genreAct_wf g))
  · funext t a
    rw [foldl_proj (fun u => u.trackArtist t a) (trackArtistAct t a) id
        (fun u o => applyOp_trackArtist u o t a) l,
      foldl_proj (fun u => u.trackArtist t a) (trackArtistAct t a) id
        (fun u o => applyOp_trackArtist u o t a) l]
    exact kfold_idem _ _ _ (wfmap _ _ (trackArtistAct_wf t a))
  · funext al a
    rw [foldl_proj (fun u => u.albumArtist al a) (albumArtistAct al a) id
        (fun u o => applyOp_albumArtist u o al a) l,
      foldl_proj (fun u => u.albumArtist al a) (albumArtistAct al a) id
        (fun u o => applyOp_albumArtist u o al a) l]
    exact kfold_idem _ _ _ (wfmap _ _ (albumArtistAct_wf al a))
  · funext a g
    rw [foldl_proj (fun u => u.artistGenre a g) (artistGenreAct a g) id
        (fun u o => applyOp_artistGenre u o a g) l,
      foldl_proj (fun u => u.artistGenre a g) (artistGenreAct a g) id
        (fun u o => applyOp_artistGenre u o a g) l]
    exact kfold_idem _ _ _ (wfmap _ _ (artistGenreAct_wf a g))

/-- Helper: every statement except the Genre SELECT succeeds
unconditionally. -/
theorem execOp_not_sel (s : DBState) (o : DumpOp) (h : hasSel o = false) :
    execOp s o = Except.ok (applyOp s o) := by
  cases o <;> simp [hasSel] at h ⊢ <;> rfl

/-- Helper: a statement list without Genre SELECTs executes without
failure. -/
theorem execOps_no_sel (l : List DumpOp) (s : DBState)
    (h : ∀ o ∈ l, hasSel o = false) :
    execOps s l = Except.ok (applyOps s l) := by
  induction l generalizing s with
  | nil => rfl
  | cons o rest ih =>
      rw [execOps, execOp_not_sel s o (h o (by simp))]
      exact ih _ (fun x hx => h x (by simp [hx]))

/-- Helper: dump_tracks issues no Genre SELECT. -/
theorem dump_tracks_no_sel (ts : List TrackP) :
    ∀ o ∈ dump_tracks_ops ts, hasSel o = false := by
  intro o ho
  rw [dump_tracks_ops] at ho
  obtain ⟨t, -, ho⟩ := List.mem_flatMap.mp ho
  rw [track_item_ops] at ho
  rcases List.mem_cons.mp ho with rfl | ho
  · rfl
  rcases List.mem_append.mp ho with ho | ho
  · obtain ⟨a, -, ho⟩ := List.mem_flatMap.mp ho
    rcases List.mem_cons.mp ho with rfl | ho
    · rfl
    · rcases List.mem_cons.mp ho with rfl | ho
      · rfl
      · simp at ho
  · rcases List.mem_cons.mp ho with rfl | ho
    · rfl
    · simp at ho

/-- Helper: stepping the fallible execution over a succeeding
statement. -/
theorem execOps_cons_ok (s s' : DBState) (o : DumpOp) (rest : List DumpOp)
    (h : execOp s o = Except.ok s') :
    execOps s (o :: rest) = execOps s' rest := by
  rw [execOps, h]

/-- Helper: after INSERT OR IGNORE INTO Genre (name), the row with that
name exists — it was either there already or has just been inserted. -/
theorem insGenre_sets (s : DBState) (g : String) :
    (applyOp s (DumpOp.insGenre g)).genre g = true := by
  by_cases h : s.genre g <;> simp [applyOp, h]

/-- Helper: each per-genre statement triple of dump_artists executes
without failure — the SELECT immediately follows the INSERT OR IGNORE of
the same unique name, so fetchone() always finds a row. -/
theorem exec_genre_triples (a : String) (gs : List String) (s : DBState) :
    execOps s (gs.flatMap fun g => [DumpOp.insGenre g, DumpOp.selGenre g,
      DumpOp.insArtistGenre a g]) =
    Except.ok (applyOps s (gs.flatMap fun g => [DumpOp.insGenre g,
      DumpOp.selGenre g, DumpOp.insArtistGenre a g])) := by
  induction gs generalizing s with
  | nil => rfl
  | cons g gs ih =>
      simp only [List.flatMap_cons, List.cons_append, List.nil_append]
      rw [execOps_cons_ok _ _ _ _ (show execOp s (DumpOp.insGenre g) =
          Except.ok (applyOp s (DumpOp.insGenre g)) from rfl),
        execOps_cons_ok _ _ _ _ (show execOp (applyOp s (DumpOp.insGenre g))
          (DumpOp.selGenre g) = Except.ok (applyOp s (DumpOp.insGenre g)) by
            simp [execOp, insGenre_sets]),
        execOps_cons_ok _ _ _ _ (show execOp (applyOp s (DumpOp.insGenre g))
            (DumpOp.insArtistGenre a g) = Except.ok (applyOp (applyOp s
            (DumpOp.insGenre g)) (DumpOp.insArtistGenre a g)) from rfl), ih]
      rfl

/-- Helper: execution of an appended list continues from the state of a
succeeding first part. -/
theorem execOps_ok_append (s s1 : DBState) (l1 l2 : List DumpOp)
    (h : execOps s l1 = Except.ok s1) :
    execOps s (l1 ++ l2) = execOps s1 l2 := by
  induction l1 generalizing s with
  | nil =>
      obtain rfl : s = s1 := Except.ok.inj h
      rfl
  | cons o rest ih =>
      rw [execOps] at h
      rw [List.cons_append, execOps]
      cases e : execOp s o with
      | error u => rw [e] at h; simp at h
      | ok s2 =>
          rw [e] at h
          simp only
          exact ih _ h

/-- Helper: the store fold over an appended list. -/
theorem applyOps_append (s : DBState) (l1 l2 : List DumpOp) :
    applyOps s (l1 ++ l2) = applyOps (applyOps s l1) l2 :=
  List.foldl_append _ _ _ _

/-- Claim C10: dump_artists cannot fail at the genre-lookup step: on any
store state the whole statement sequence executes without raising (the
fetchone()[0] dereference after each Genre SELECT always finds a row,
because INSERT OR IGNORE on the unique name directly precedes it), and
the run equals the total statement semantics. -/
theorem C10_genre_select_safe (ars : List ArtistP) (s : DBState) :
    execOps s (dump_artists_ops ars) =
      Except.ok (applyOps s (dump_artists_ops ars)) := by
  induction ars generalizing s with
  | nil => rfl
  | cons ar ars ih =>
      show execOps s (artist_item_ops ar ++ dump_artists_ops ars) =
        Except.ok (applyOps s (artist_item_ops ar ++ dump_artists_ops ars))
      have h1 : execOps s (artist_item_ops ar) =
          Except.ok (applyOps s (artist_item_ops ar)) := by
        rw [artist_item_ops, execOps_cons_ok _ _ _ _
          (show execOp s (DumpOp.replaceArtist ar.id ar.name ar.popularity
            ar.followers) = Except.ok (applyOp s (DumpOp.replaceArtist ar.id
            ar.name ar.popularity ar.followers)) from rfl)]
        exact exec_genre_triples ar.id ar.genres _
      rw [execOps_ok_append _ _ _ _ h1, ih, applyOps_append]

/-- Claim C6: persisting the same track payload twice on the
PRIMARY-KEY-per-id schema of create_tables is idempotent: dump_tracks
executes without failure, and applying its statement sequence a second
time to the state left by the first leaves the store unchanged — the
second run's REPLACE rewrites only the same mutable columns and its
IGNORE inserts (stub rows and relation rows, which live behind composite
primary keys, hence at most one row per key) all hit existing keys and
are silently ignored. -/
theorem C6_idempotent_dump (ts : List TrackP) (s : DBState) :
    execOps s (dump_tracks_ops ts) =
      Except.ok (applyOps s (dump_tracks_ops ts)) ∧
    applyOps (applyOps s (dump_tracks_ops ts)) (dump_tracks_ops ts) =
      applyOps s (dump_tracks_ops ts) :=
  ⟨execOps_no_sel _ _ (dump_tracks_no_sel ts), applyOps_idem _ _⟩
